import Mathlib

set_option maxRecDepth 10000
set_option maxHeartbeats 1000000

namespace LlmEvalLab

/-!
Shallow embedding of the llm_eval_lab repository (src/evaluators, src/loaders,
src/parsers, src/models).  Machine reals (Python floats) are modelled as ℚ,
Python ints as ℤ, Python dicts with possibly-missing keys as structures with
Option fields, and external calls (judge models, the lettucedetect detector,
the rouge-score scorer) as oracle parameters.  Exceptions are modelled with
Except: `.error e` stands for a Python exception escaping the function.
-/

/-! ## Python-semantics helpers -/

/-- Floor of a rational, written so that it reduces in the kernel
(`Rat.floor_def` shows it agrees with `Int.floor`). -/
def pyFloor (x : ℚ) : ℤ := x.num / (x.den : ℤ)

/-- CPython `round`: round half to even (the inputs we round are exact
dyadic rationals, where float `round` agrees with the exact computation). -/
def pyRound (x : ℚ) : ℤ :=
  if x - pyFloor x < 1/2 then pyFloor x
  else if 1/2 < x - pyFloor x then pyFloor x + 1
  else if pyFloor x % 2 = 0 then pyFloor x else pyFloor x + 1

/-- ASCII whitespace, as recognised by Python `str.strip()` and by `\s`
in the `re` module (the repository only feeds ASCII whitespace to these). -/
def pyIsSpace (c : Char) : Bool :=
  c = ' ' || c = '\t' || c = '\n' || c = '\r' || c = '\x0b' || c = '\x0c'

def pyStripChars (l : List Char) : List Char :=
  ((l.dropWhile pyIsSpace).reverse.dropWhile pyIsSpace).reverse

/-- Python `str.strip()`. -/
def pyStrip (s : String) : String :=
  String.mk (pyStripChars s.toList)

/-- Removes non-overlapping occurrences of `pat` from the scanned list, left to
right, as Python `str.replace(pat, "")` does.  Fuel-based so it reduces in the
kernel; one unit of fuel per consumed character suffices for nonempty `pat`. -/
def removeOccAux (pat : List Char) : ℕ → List Char → List Char
  | 0, s => s
  | _ + 1, [] => []
  | fuel + 1, c :: rest =>
    if pat.isPrefixOf (c :: rest) then removeOccAux pat fuel ((c :: rest).drop pat.length)
    else c :: removeOccAux pat fuel rest

/-- Python `s.replace(pat, "")`. -/
def pyRemoveOccurrences (pat s : String) : String :=
  String.mk (removeOccAux pat.toList (s.toList.length + 1) s.toList)

/-- Python string slicing `s[a:b]` with negative-index and clamping rules. -/
def pySlice (s : String) (a b : ℤ) : String :=
  let n : ℤ := (s.toList.length : ℤ)
  let lo := if a < 0 then max (a + n) 0 else min a n
  let hi := if b < 0 then max (b + n) 0 else min b n
  String.mk ((s.toList.drop lo.toNat).take (hi - lo).toNat)

def padZeros (w : ℕ) (s : String) : String :=
  String.mk (List.replicate (w - s.toList.length) '0') ++ s

def fixedOfScaled (decimals : ℕ) (n : ℤ) : String :=
  (if n < 0 then "-" else "")
    ++ toString (n.natAbs / 10 ^ decimals)
    ++ (if decimals = 0 then "" else "." ++ padZeros decimals (toString (n.natAbs % 10 ^ decimals)))

/-- Python fixed-point formatting `f"{q:.Nf}"` on exact rationals. -/
def formatFixed (decimals : ℕ) (q : ℚ) : String :=
  fixedOfScaled decimals (pyRound (q * ((10 : ℚ) ^ decimals)))

/-- Python percent formatting `f"{q:.N%}"`. -/
def formatPercent (decimals : ℕ) (q : ℚ) : String :=
  formatFixed decimals (q * 100) ++ "%"

/-- The constant `string.punctuation` from the Python standard library. -/
def punctuationString : String :=
  "!\"#$%&\x27()*+,-./:;<=>?@[\\]^_\x60\x7b|\x7d~"

/-! ## Data model (src/models/evaluation_models.py, conversation_models.py) -/

/-- RelevanceResult dataclass. -/
structure RelevanceResult where
  score : ℤ
  is_relevant : Bool
  is_complete : Bool
  relevance_explanation : String
  completeness_explanation : String
  missing_aspects : List String := []
deriving DecidableEq

/-- One entry of `hallucinated_claims` (a Python dict; span/confidence keys are
present only for the transformer strategy, hence Option). -/
structure HallucinatedClaim where
  claim : String
  category : String
  explanation : String
  severity : String
  start : Option ℤ := none
  end_ : Option ℤ := none
  confidence : Option ℚ := none
deriving DecidableEq

/-- One entry of `verified_claims`. -/
structure VerifiedClaim where
  claim : String
  source_snippet : String
deriving DecidableEq

/-- HallucinationResult dataclass. -/
structure HallucinationResult where
  score : ℤ
  has_hallucination : Bool
  factual_accuracy : ℚ
  hallucinated_claims : List HallucinatedClaim := []
  verified_claims : List VerifiedClaim := []
  explanation : String := ""
deriving DecidableEq

/-- ROUGEResult dataclass. -/
structure ROUGEResult where
  rouge_1 : Option ℚ := none
  rouge_2 : Option ℚ := none
  rouge_l : Option ℚ := none
  rouge_1_precision : Option ℚ := none
  rouge_1_recall : Option ℚ := none
  rouge_2_precision : Option ℚ := none
  rouge_2_recall : Option ℚ := none
  rouge_l_precision : Option ℚ := none
  rouge_l_recall : Option ℚ := none
  average_score : ℚ := 0
  explanation : String := ""
deriving DecidableEq

/-- EvaluationResult dataclass. -/
structure EvaluationResult where
  turn_id : ℤ
  user_query : String
  ai_response : String
  relevance : Option RelevanceResult := none
  hallucination : Option HallucinationResult := none
  rouge : Option ROUGEResult := none
  overall_score : ℚ := 0
  evaluation_summary : String := ""
  context_used : List String := []
  evaluation_note : Option String := none
deriving DecidableEq

/-- A context-vector dict as consumed by the evaluators (`v.get("text", "")`,
`v.get("source_url", "")`); missing keys are `none`. -/
structure ContextVector where
  id : Option ℤ := none
  source_url : Option String := none
  text : Option String := none
  tokens : Option ℤ := none
  created_at : Option String := none
deriving DecidableEq

/-- ConversationTurn dataclass. -/
structure ConversationTurn where
  turn : ℤ
  sender_id : ℤ
  role : String
  message : String
  created_at : String
  evaluation_note : Option String := none
deriving DecidableEq

/-- Conversation dataclass. -/
structure Conversation where
  chat_id : ℤ
  user_id : ℤ
  conversation_turns : List ConversationTurn
deriving DecidableEq

/-! ## MetricsConfig (src/parsers/config_loader.py) -/

/-- MetricsConfig dataclass with its declared defaults (`rouge_types` default
comes from `__post_init__`). -/
structure MetricsConfig where
  response_relevance : Bool := true
  response_completeness : Bool := true
  hallucination : Bool := true
  rouge : Bool := true
  response_relevance_method : String := "llm_judge"
  response_completeness_method : String := "llm_judge"
  hallucination_method : String := "llm_judge"
  rouge_method : String := "rouge"
  lettucedetect_model : String := "KRLabsOrg/lettucedect-base-modernbert-en-v1"
  response_relevance_weight : ℚ := mkRat 3 10
  response_completeness_weight : ℚ := mkRat 3 10
  hallucination_weight : ℚ := mkRat 3 10
  rouge_weight : ℚ := mkRat 1 10
  rouge_types : List String := ["rouge-1", "rouge-2", "rouge-l"]
deriving DecidableEq

/-! ## LettuceDetect evaluator (src/evaluators/lettucedetect_evaluator.py)

The lettucedetect package is an external dependency: its availability is an
oracle (`Option LettuceDetector`), and the detector method `predict` is an
oracle function that may itself raise (`Except`).  `lettuce_evaluate` returns
`Except String HallucinationResult`, where `.error` would stand for an
exception escaping `evaluate`; the translation shows it never produces one. -/

/-- A span prediction dict returned by `detector.predict(..., output_format="spans")`;
missing keys (read via `.get`) are `none`.  `end_` models the key `end`. -/
structure PredSpan where
  start : Option ℤ := none
  end_ : Option ℤ := none
  confidence : Option ℚ := none
  text : Option String := none
deriving DecidableEq

/-- The lettucedetect `HallucinationDetector`: only its `predict` method is
consumed; an inference failure is an `.error`. -/
structure LettuceDetector where
  predict : List String → String → String → Except String (List PredSpan)

/-- The ImportError message raised by `LettuceDetectEvaluator._get_detector`. -/
def lettucedetect_import_error_message : String :=
  "LettuceDetect evaluation requires lettucedetect package.\nInstall with: pip install lettucedetect\nOr: pip install -r requirements.txt"

/-- `LettuceDetectEvaluator._get_detector`: lazy import; raises ImportError with
an install instruction when the package is missing. -/
def lettuce_get_detector (imported : Option LettuceDetector) : Except String LettuceDetector :=
  match imported with
  | some d => .ok d
  | none => .error lettucedetect_import_error_message

/-- The combined outcome of `self._get_detector()` followed by
`detector.predict(context=..., question=..., answer=..., output_format="spans")`
(both calls sit inside the same `try` block in `evaluate`). -/
def lettucePredictOutcome (imported : Option LettuceDetector) (contexts : List String)
    (question answer : String) : Except String (List PredSpan) := do
  let detector ← lettuce_get_detector imported
  detector.predict contexts question answer

/-- `LettuceDetectEvaluator._extract_context_text`. -/
def extract_context_text (context_vectors : List ContextVector) : List String :=
  let contexts := context_vectors.filterMap (fun vector =>
    let text := vector.text.getD ""
    if text ≠ "" then some text else none)
  if contexts = [] then [""] else contexts

def predStart (pred : PredSpan) : ℤ := pred.start.getD 0

def predEnd (ai_response : String) (pred : PredSpan) : ℤ :=
  pred.end_.getD (ai_response.toList.length : ℤ)

def predConfidence (pred : PredSpan) : ℚ := pred.confidence.getD 0

def predText (ai_response : String) (pred : PredSpan) : String :=
  pred.text.getD (pySlice ai_response (predStart pred) (predEnd ai_response pred))

/-- The dict appended to `hallucinated_spans` for a retained span
(lettucedetect_evaluator.py lines 122-130). -/
def mkHallucinatedClaim (ai_response : String) (pred : PredSpan) : HallucinatedClaim :=
  { claim := pyStrip (predText ai_response pred)
    category := "fabricated"
    explanation := "Detected unsupported claim with confidence "
      ++ formatFixed 2 (predConfidence pred)
    severity := if mkRat 4 5 < predConfidence pred then "high"
      else if mkRat 1 2 < predConfidence pred then "medium" else "low"
    start := some (predStart pred)
    end_ := some (predEnd ai_response pred)
    confidence := some (predConfidence pred) }

/-- The span-processing loop (lines 111-132): returns the retained
`hallucinated_spans` in input order together with `hallucinated_length`.
Note the filter computes `text.strip().replace(string.punctuation, "")`,
where `str.replace` removes occurrences of the whole 32-character
punctuation string, not individual punctuation characters. -/
def buildClaims (ai_response : String) : List PredSpan → List HallucinatedClaim × ℤ
  | [] => ([], 0)
  | pred :: rest =>
    if (pyRemoveOccurrences punctuationString (pyStrip (predText ai_response pred))).toList.length < 5
        ∨ predConfidence pred < mkRat 4 5 then
      buildClaims ai_response rest
    else
      (mkHallucinatedClaim ai_response pred :: (buildClaims ai_response rest).1,
       (buildClaims ai_response rest).2 + (predEnd ai_response pred - predStart pred))

/-- The neutral fallback result built by the `except Exception` handler
(lines 176-182). -/
def lettuceFallback (e : String) : HallucinationResult :=
  { score := 3
    has_hallucination := false
    factual_accuracy := mkRat 1 2
    explanation := "LettuceDetect evaluation error: " ++ e }

/-- The result built on the successful path of `evaluate` (lines 106-174). -/
def lettuceSuccessResult (ai_response : String) (predictions : List PredSpan) : HallucinationResult :=
  let hallucinated_spans := (buildClaims ai_response predictions).1
  let hallucinated_length := (buildClaims ai_response predictions).2
  let total_length : ℤ := (ai_response.toList.length : ℤ)
  let factual_accuracy : ℚ :=
    if 0 < total_length then 1 - (hallucinated_length : ℚ) / (total_length : ℚ) else 0
  let has_hallucination : Bool := decide (0 < hallucinated_spans.length)
  let score : ℤ :=
    if has_hallucination = false then 5
    else if mkRat 9 10 < factual_accuracy then 4
    else if mkRat 7 10 < factual_accuracy then 3
    else if mkRat 1 2 < factual_accuracy then 2
    else 1
  { score := score
    has_hallucination := has_hallucination
    factual_accuracy := factual_accuracy
    hallucinated_claims := hallucinated_spans
    verified_claims :=
      if has_hallucination = false then
        [{ claim := ai_response, source_snippet := "Full response verified against context" }]
      else []
    explanation := "LettuceDetect analysis: " ++ toString hallucinated_spans.length
      ++ " hallucinated span(s) detected. Factual accuracy: " ++ formatPercent 1 factual_accuracy }

/-- `LettuceDetectEvaluator.evaluate`.  Returns `.ok` on every path: the whole
detector interaction sits inside `try ... except Exception`, whose handler
returns `lettuceFallback`. -/
def lettuce_evaluate (user_query ai_response : String) (context_vectors : List ContextVector)
    (imported : Option LettuceDetector) : Except String HallucinationResult :=
  if ai_response = "" ∨ context_vectors = [] then
    .ok { score := 1, has_hallucination := false, factual_accuracy := 0,
          explanation := "Cannot evaluate: missing response or context" }
  else
    let contexts := extract_context_text context_vectors
    if contexts = [] ∨ contexts.headD "" = "" then
      .ok { score := 1, has_hallucination := false, factual_accuracy := 0,
            explanation := "Cannot evaluate: no context text found" }
    else
      match lettucePredictOutcome imported contexts user_query ai_response with
      | .error e => .ok (lettuceFallback e)
      | .ok predictions => .ok (lettuceSuccessResult ai_response predictions)

/-! ## LLM-as-judge relevance (src/evaluators/llm_evaluator.py, lines 66-94)

The judge call plus `_parse_json_response` is an external, non-deterministic
step; its successfully parsed JSON dict is the oracle input below (required
keys typed directly, `missing_aspects` read with `.get(..., [])`). -/

/-- A parsed judge response for the relevance prompt. -/
structure RelevanceJudgeOutput where
  relevance_score : ℤ
  completeness_score : ℤ
  is_relevant : Bool
  is_complete : Bool
  relevance_explanation : String
  completeness_explanation : String
  missing_aspects : Option (List String) := none
deriving DecidableEq

/-- `LLMEvaluator.evaluate_relevance`, after the judge output has been parsed:
`avg_score = (relevance_score + completeness_score) / 2` (Python true division),
`score = round(avg_score)`. -/
def evaluate_relevance (judge : RelevanceJudgeOutput) : RelevanceResult :=
  let avg_score : ℚ := ((judge.relevance_score : ℚ) + (judge.completeness_score : ℚ)) / 2
  { score := pyRound avg_score
    is_relevant := judge.is_relevant
    is_complete := judge.is_complete
    relevance_explanation := judge.relevance_explanation
    completeness_explanation := judge.completeness_explanation
    missing_aspects := judge.missing_aspects.getD [] }

/-! ## ROUGE evaluator (src/evaluators/rouge_evaluator.py)

The rouge-score package is an external dependency: its availability is an
oracle (`Option (String → String → RougeScores)` — the `score` method of the
scorer, called as `scorer.score(reference_text, ai_response)`). -/

/-- Precision/recall/fmeasure triple of one ROUGE sub-metric
(`recall_` models the attribute `recall`, which collides with a tactic name). -/
structure RougeScoreEntry where
  precision : ℚ
  recall_ : ℚ
  fmeasure : ℚ
deriving DecidableEq

/-- The dict returned by `scorer.score` for keys rouge1/rouge2/rougeL. -/
structure RougeScores where
  rouge1 : RougeScoreEntry
  rouge2 : RougeScoreEntry
  rougeL : RougeScoreEntry
deriving DecidableEq

/-- The ImportError message raised by `ROUGEEvaluator._get_rouge_scorer`. -/
def rouge_import_error_message : String :=
  "ROUGE evaluation requires rouge-score package.\nInstall with: pip install rouge-score\nOr: pip install -r requirements.txt"

/-- `ROUGEEvaluator._get_rouge_scorer`: lazy import; raises ImportError with an
install instruction when the package is missing. -/
def rouge_get_scorer (imported : Option (String → String → RougeScores)) :
    Except String (String → String → RougeScores) :=
  match imported with
  | some scorer => .ok scorer
  | none => .error rouge_import_error_message

/-- `ROUGEEvaluator._extract_reference_text`: space-join of the nonempty
context texts. -/
def extract_reference_text (context_vectors : List ContextVector) : String :=
  String.intercalate " " (context_vectors.filterMap (fun vector =>
    let text := vector.text.getD ""
    if text ≠ "" then some text else none))

/-- `ROUGEEvaluator.evaluate`.  `rouge_types` is the per-call override
(`rouge_types or self.rouge_types`: Python `or` also rejects an empty list);
`self_rouge_types` is the instance default.  The call sequence
`scorer = self._get_rouge_scorer()` sits outside any `try`, so an ImportError
propagates (`.error`). -/
def rouge_evaluate (ai_response : String) (context_vectors : List ContextVector)
    (rouge_types : Option (List String)) (self_rouge_types : List String)
    (imported : Option (String → String → RougeScores)) : Except String ROUGEResult :=
  if ai_response = "" ∨ context_vectors = [] then
    .ok { explanation := "Cannot compute ROUGE: missing response or context" }
  else
    let rouge_types_to_use := match rouge_types with
      | some ts => if ts = [] then self_rouge_types else ts
      | none => self_rouge_types
    let reference_text := extract_reference_text context_vectors
    if reference_text = "" then
      .ok { explanation := "Cannot compute ROUGE: no reference text found in context" }
    else
      match rouge_get_scorer imported with
      | .error e => .error e
      | .ok scorer =>
        let scores := scorer reference_text ai_response
        let use1 := "rouge-1" ∈ rouge_types_to_use ∨ "rouge1" ∈ rouge_types_to_use
        let use2 := "rouge-2" ∈ rouge_types_to_use ∨ "rouge2" ∈ rouge_types_to_use
        let useL := "rouge-l" ∈ rouge_types_to_use ∨ "rougel" ∈ rouge_types_to_use
        let enabled_scores : List ℚ :=
          (if use1 then [scores.rouge1.fmeasure] else [])
            ++ (if use2 then [scores.rouge2.fmeasure] else [])
            ++ (if useL then [scores.rougeL.fmeasure] else [])
        .ok { rouge_1 := if use1 then some scores.rouge1.fmeasure else none
              rouge_1_precision := if use1 then some scores.rouge1.precision else none
              rouge_1_recall := if use1 then some scores.rouge1.recall_ else none
              rouge_2 := if use2 then some scores.rouge2.fmeasure else none
              rouge_2_precision := if use2 then some scores.rouge2.precision else none
              rouge_2_recall := if use2 then some scores.rouge2.recall_ else none
              rouge_l := if useL then some scores.rougeL.fmeasure else none
              rouge_l_precision := if useL then some scores.rougeL.precision else none
              rouge_l_recall := if useL then some scores.rougeL.recall_ else none
              average_score := if enabled_scores = [] then 0
                else enabled_scores.sum / (enabled_scores.length : ℚ)
              explanation := if enabled_scores = [] then "No ROUGE metrics enabled"
                else "ROUGE scores computed: " ++ toString enabled_scores.length
                  ++ " metric(s). Average F1: "
                  ++ formatFixed 3 (enabled_scores.sum / (enabled_scores.length : ℚ)) }

/-! ## Unified evaluator (src/evaluators/unified_evaluator.py)

The per-strategy results are oracle inputs: each field stands for the value
returned by the corresponding strategy call for this turn. -/

/-- Results returned by the individual strategy calls, supplied as oracles. -/
structure StrategyOracle where
  relevanceResult : RelevanceResult
  judgeHallucinationResult : HallucinationResult
  lettuceResult : HallucinationResult
  rougeNgramResult : ROUGEResult
  rougeJudgeResult : ROUGEResult

/-- Lines 62-66: the relevance strategy runs iff
`response_relevance or response_completeness`. -/
def selectRelevance (config : MetricsConfig) (o : StrategyOracle) : Option RelevanceResult :=
  if config.response_relevance ∨ config.response_completeness then some o.relevanceResult
  else none

/-- Lines 68-84: hallucination dispatch by `hallucination_method`
(unknown methods fall back to the LLM judge). -/
def selectHallucination (config : MetricsConfig) (o : StrategyOracle) : Option HallucinationResult :=
  if config.hallucination then
    some (if config.hallucination_method = "lettucedetect" then o.lettuceResult
      else if config.hallucination_method = "llm_judge" then o.judgeHallucinationResult
      else o.judgeHallucinationResult)
  else none

/-- Lines 86-108: ROUGE dispatch by `rouge_method`
(unknown methods fall back to the n-gram strategy). -/
def selectRouge (config : MetricsConfig) (o : StrategyOracle) : Option ROUGEResult :=
  if config.rouge then
    some (if config.rouge_method = "rouge" then o.rougeNgramResult
      else if config.rouge_method = "llm_judge" then o.rougeJudgeResult
      else o.rougeNgramResult)
  else none

/-- Relevance/completeness contribution to `(overall_score, total_weight)`
(lines 114-122): both branches read the same combined relevance score. -/
def relevancePart (config : MetricsConfig) (relevance : Option RelevanceResult) : ℚ × ℚ :=
  match relevance with
  | some r =>
    ((if config.response_relevance then
        (r.score : ℚ) / 5 * config.response_relevance_weight else 0)
      + (if config.response_completeness then
        (r.score : ℚ) / 5 * config.response_completeness_weight else 0),
     (if config.response_relevance then config.response_relevance_weight else 0)
      + (if config.response_completeness then config.response_completeness_weight else 0))
  | none => (0, 0)

/-- Hallucination contribution (lines 124-126). -/
def hallucinationPart (config : MetricsConfig) (hallucination : Option HallucinationResult) : ℚ × ℚ :=
  match hallucination with
  | some h => ((h.score : ℚ) / 5 * config.hallucination_weight, config.hallucination_weight)
  | none => (0, 0)

/-- ROUGE contribution (lines 128-130): `average_score` is added directly,
not divided by 5. -/
def rougePart (config : MetricsConfig) (rouge : Option ROUGEResult) : ℚ × ℚ :=
  match rouge with
  | some rg => (rg.average_score * config.rouge_weight, config.rouge_weight)
  | none => (0, 0)

/-- Lines 110-136: accumulate the weighted sum and total weight, then
normalize to the 0-5 scale (`0.0` when `total_weight` is zero). -/
def computeOverall (config : MetricsConfig) (relevance : Option RelevanceResult)
    (hallucination : Option HallucinationResult) (rouge : Option ROUGEResult) : ℚ :=
  let weighted_sum := (relevancePart config relevance).1 + (hallucinationPart config hallucination).1
    + (rougePart config rouge).1
  let total_weight := (relevancePart config relevance).2 + (hallucinationPart config hallucination).2
    + (rougePart config rouge).2
  if 0 < total_weight then weighted_sum / total_weight * 5 else 0

/-- Summary generation (lines 138-167). -/
def buildSummary (config : MetricsConfig) (relevance : Option RelevanceResult)
    (hallucination : Option HallucinationResult) (rouge : Option ROUGEResult)
    (overall_score : ℚ) : String :=
  let parts : List String :=
    (match relevance with
      | some r =>
        (if config.response_relevance then
          [if r.is_relevant then "✅ Response is relevant." else "⚠️ Response lacks relevance."]
         else [])
        ++ (if config.response_completeness then
          [if r.is_complete then "✅ Response is complete." else "⚠️ Response is incomplete."]
         else [])
      | none => [])
    ++ (match hallucination with
      | some h =>
        [if h.has_hallucination then
          "🚨 Detected " ++ toString h.hallucinated_claims.length ++ " hallucination(s)."
         else "✅ No hallucinations detected."]
      | none => [])
    ++ (match rouge with
      | some rg => ["📊 ROUGE Average: " ++ formatFixed 3 rg.average_score]
      | none => [])
    ++ ["Overall Score: " ++ formatFixed 1 overall_score ++ "/5.0"]
  String.intercalate "\n" parts

/-- `UnifiedEvaluator.evaluate_response` (lines 46-179), with the strategy
call results supplied by the oracle. -/
def evaluate_response (config : MetricsConfig) (o : StrategyOracle) (turn_id : ℤ)
    (user_query ai_response : String) (context_vectors : List ContextVector) : EvaluationResult :=
  let relevance := selectRelevance config o
  let hallucination := selectHallucination config o
  let rouge := selectRouge config o
  let overall_score := computeOverall config relevance hallucination rouge
  { turn_id := turn_id
    user_query := user_query
    ai_response := ai_response
    relevance := relevance
    hallucination := hallucination
    rouge := rouge
    overall_score := overall_score
    evaluation_summary := buildSummary config relevance hallucination rouge overall_score
    context_used := (context_vectors.take 5).map (fun v => v.source_url.getD "") }

/-- Scaling every metric weight of a configuration by `c`. -/
def scaleWeights (c : ℚ) (config : MetricsConfig) : MetricsConfig :=
  { config with
    response_relevance_weight := c * config.response_relevance_weight
    response_completeness_weight := c * config.response_completeness_weight
    hallucination_weight := c * config.hallucination_weight
    rouge_weight := c * config.rouge_weight }

/-! ## JSON loader (src/loaders/json_loader.py)

`json.loads` is modelled by a standard JSON parser over the character list
(values as `JsonVal`, duplicate object keys overwriting in place as Python
dicts do).  The `strict` flag mirrors `json.loads(..., strict=False)`, which
only toggles acceptance of raw control characters inside strings. -/

/-- A parsed JSON value (the result of `json.loads`). -/
inductive JsonVal where
  | null : JsonVal
  | bool : Bool → JsonVal
  | num : ℚ → JsonVal
  | str : String → JsonVal
  | arr : List JsonVal → JsonVal
  | obj : List (String × JsonVal) → JsonVal

/-- JSON whitespace accepted between tokens by `json.loads`. -/
def jsonIsSpace (c : Char) : Bool :=
  c = ' ' || c = '\t' || c = '\n' || c = '\r'

def skipWs (s : List Char) : List Char := s.dropWhile jsonIsSpace

def unescapeChar (c : Char) : Option Char :=
  if c = '"' then some '"'
  else if c = '\\' then some '\\'
  else if c = '/' then some '/'
  else if c = 'b' then some '\x08'
  else if c = 'f' then some '\x0c'
  else if c = 'n' then some '\n'
  else if c = 'r' then some '\r'
  else if c = 't' then some '\t'
  else none

def hexVal (c : Char) : Option ℕ :=
  if '0' ≤ c ∧ c ≤ '9' then some (c.toNat - '0'.toNat)
  else if 'a' ≤ c ∧ c ≤ 'f' then some (c.toNat - 'a'.toNat + 10)
  else if 'A' ≤ c ∧ c ≤ 'F' then some (c.toNat - 'A'.toNat + 10)
  else none

/-- JSON string body parser (called after the opening quote): returns the
decoded characters and the remaining input.  In strict mode raw control
characters are rejected, as in `json.loads`. -/
def parseJString (strict : Bool) : ℕ → List Char → Except String (List Char × List Char)
  | 0, _ => .error "Unterminated string"
  | _ + 1, [] => .error "Unterminated string"
  | fuel + 1, c :: rest =>
    if c = '"' then .ok ([], rest)
    else if c = '\\' then
      match rest with
      | [] => .error "Unterminated string"
      | e :: rest2 =>
        if e = 'u' then
          match rest2 with
          | h1 :: h2 :: h3 :: h4 :: rest3 =>
            match hexVal h1, hexVal h2, hexVal h3, hexVal h4 with
            | some a, some b, some c2, some d =>
              match parseJString strict fuel rest3 with
              | .ok (cs, rem) => .ok (Char.ofNat (((a * 16 + b) * 16 + c2) * 16 + d) :: cs, rem)
              | .error err => .error err
            | _, _, _, _ => .error "Invalid unicode escape"
          | _ => .error "Invalid unicode escape"
        else
          match unescapeChar e with
          | some ec =>
            match parseJString strict fuel rest2 with
            | .ok (cs, rem) => .ok (ec :: cs, rem)
            | .error err => .error err
          | none => .error "Invalid escape"
    else if strict ∧ c.toNat < 32 then .error "Invalid control character"
    else
      match parseJString strict fuel rest with
      | .ok (cs, rem) => .ok (c :: cs, rem)
      | .error err => .error err

def digitsToNat (l : List Char) : ℕ :=
  l.foldl (fun acc c => acc * 10 + (c.toNat - '0'.toNat)) 0

/-- JSON number parser. -/
def parseJNumber (s : List Char) : Except String (ℚ × List Char) :=
  let neg := s.headD ' ' = '-'
  let s1 := if neg then s.tail else s
  let intDigits := s1.takeWhile Char.isDigit
  let s2 := s1.dropWhile Char.isDigit
  if intDigits = [] then .error "Expecting value"
  else
    let hasBadFrac : Bool := match s2 with
      | '.' :: r => (r.takeWhile Char.isDigit).isEmpty
      | _ => false
    if hasBadFrac then .error "Expecting digits after decimal point"
    else
      let fracDigits := match s2 with
        | '.' :: r => r.takeWhile Char.isDigit
        | _ => []
      let s3 := match s2 with
        | '.' :: r => r.dropWhile Char.isDigit
        | _ => s2
      let hasExp : Bool := match s3 with
        | e :: _ => e = 'e' || e = 'E'
        | [] => false
      let expTail := if hasExp then s3.tail else []
      let expNeg := expTail.headD ' ' = '-'
      let expDigitsInput := match expTail with
        | '+' :: r => r
        | '-' :: r => r
        | r => r
      let expDigits := expDigitsInput.takeWhile Char.isDigit
      if hasExp && expDigits.isEmpty then .error "Expecting digits in exponent"
      else
        let s4 := if hasExp then expDigitsInput.dropWhile Char.isDigit else s3
        let mantissa : ℚ :=
          (digitsToNat intDigits : ℚ)
            + (digitsToNat fracDigits : ℚ) / ((10 : ℚ) ^ fracDigits.length)
        let signed : ℚ := if neg then -mantissa else mantissa
        let value : ℚ :=
          if hasExp then
            if expNeg then signed / ((10 : ℚ) ^ digitsToNat expDigits)
            else signed * ((10 : ℚ) ^ digitsToNat expDigits)
          else signed
        .ok (value, s4)

/-- Pending work of the recursive-descent parser: a value, the items of an
array, or the members of an object. -/
inductive JsonTask where
  | value : JsonTask
  | items : List JsonVal → JsonTask
  | members : List (String × JsonVal) → JsonTask

/-- Adding a key to a Python dict: overwrite in place if present, else append. -/
def insertMember (members : List (String × JsonVal)) (k : String) (v : JsonVal) :
    List (String × JsonVal) :=
  if members.any (fun kv => kv.1 = k) then
    members.map (fun kv => if kv.1 = k then (k, v) else kv)
  else members ++ [(k, v)]

/-- The JSON grammar of `json.loads`, fuel-recursive so it reduces in the
kernel (fuel is decremented on every recursive call; two units per input
character suffice). -/
def parseJ (strict : Bool) : ℕ → JsonTask → List Char → Except String (JsonVal × List Char)
  | 0, _, _ => .error "Nesting too deep"
  | fuel + 1, .value, s =>
    match skipWs s with
    | [] => .error "Expecting value"
    | c :: rest =>
      if c = '"' then
        match parseJString strict fuel rest with
        | .ok (cs, rem) => .ok (.str (String.mk cs), rem)
        | .error e => .error e
      else if c = '[' then
        match skipWs rest with
        | ']' :: rem => .ok (.arr [], rem)
        | _ => parseJ strict fuel (.items []) rest
      else if c = '\x7b' then
        match skipWs rest with
        | '\x7d' :: rem => .ok (.obj [], rem)
        | _ => parseJ strict fuel (.members []) rest
      else if ['t', 'r', 'u', 'e'].isPrefixOf (c :: rest) then
        .ok (.bool true, (c :: rest).drop 4)
      else if ['f', 'a', 'l', 's', 'e'].isPrefixOf (c :: rest) then
        .ok (.bool false, (c :: rest).drop 5)
      else if ['n', 'u', 'l', 'l'].isPrefixOf (c :: rest) then
        .ok (.null, (c :: rest).drop 4)
      else
        match parseJNumber (c :: rest) with
        | .ok (q, rem) => .ok (.num q, rem)
        | .error e => .error e
  | fuel + 1, .items acc, s =>
    match parseJ strict fuel .value s with
    | .error e => .error e
    | .ok (v, rem) =>
      match skipWs rem with
      | ',' :: rem2 => parseJ strict fuel (.items (acc ++ [v])) rem2
      | ']' :: rem2 => .ok (.arr (acc ++ [v]), rem2)
      | _ => .error "Expecting delimiter"
  | fuel + 1, .members acc, s =>
    match skipWs s with
    | '"' :: rest =>
      match parseJString strict fuel rest with
      | .error e => .error e
      | .ok (kcs, rem) =>
        match skipWs rem with
        | ':' :: rem2 =>
          match parseJ strict fuel .value rem2 with
          | .error e => .error e
          | .ok (v, rem3) =>
            match skipWs rem3 with
            | ',' :: rem4 => parseJ strict fuel (.members (insertMember acc (String.mk kcs) v)) rem4
            | '\x7d' :: rem4 => .ok (.obj (insertMember acc (String.mk kcs) v), rem4)
            | _ => .error "Expecting delimiter"
        | _ => .error "Expecting colon"
    | _ => .error "Expecting property name"

/-- `json.loads` (trailing non-whitespace is "Extra data", as in Python). -/
def json_loads (strict : Bool) (s : String) : Except String JsonVal :=
  match parseJ strict (2 * s.toList.length + 2) .value s.toList with
  | .error e => .error e
  | .ok (v, rem) => if skipWs rem = [] then .ok v else .error "Extra data"

/-- Splitting a character list at a separator, as Python `str.split(sep)`. -/
def splitOnChar (sep : Char) : List Char → List (List Char)
  | [] => [[]]
  | c :: rest =>
    let r := splitOnChar sep rest
    if c = sep then [] :: r else (c :: r.headD []) :: r.tail

/-- Lines 116-124 of `_parse_json_with_cleanup`: split on newlines, drop every
line whose stripped form starts with `//`, and re-join. -/
def removeCommentLines (content : String) : String :=
  String.mk (List.intercalate ['\n']
    ((splitOnChar '\n' content.toList).filter
      (fun line => !(['/', '/'].isPrefixOf (pyStripChars line)))))

/-- Line 127: `re.sub(r",(\s*[}\]])", r"\1", content)`, scanning left to right
and resuming after each replaced match (the pattern keeps the whitespace and
bracket, deleting only the comma). -/
def stripTrailingCommasAux : ℕ → List Char → List Char
  | 0, s => s
  | _ + 1, [] => []
  | fuel + 1, c :: rest =>
    if c = ',' then
      match rest.dropWhile pyIsSpace with
      | b :: rem =>
        if b = '\x7d' ∨ b = ']' then
          rest.takeWhile pyIsSpace ++ b :: stripTrailingCommasAux fuel rem
        else c :: stripTrailingCommasAux fuel rest
      | [] => c :: stripTrailingCommasAux fuel rest
    else c :: stripTrailingCommasAux fuel rest

def stripTrailingCommas (content : String) : String :=
  String.mk (stripTrailingCommasAux (content.toList.length + 1) content.toList)

/-- `JSONDataLoader._parse_json_with_cleanup` (lines 114-136): comment-line
removal, trailing-comma removal, `json.loads`, retrying with `strict=False`
and re-raising the original error on double failure. -/
def parse_json_with_cleanup (content : String) : Except String JsonVal :=
  let cleaned := stripTrailingCommas (removeCommentLines content)
  match json_loads true cleaned with
  | .ok v => .ok v
  | .error e =>
    match json_loads false cleaned with
    | .ok v => .ok v
    | .error _ => .error e

/-- Looks up a top-level object key holding a string value. -/
def getStrField (v : JsonVal) (key : String) : Option String :=
  match v with
  | .obj members =>
    match members.lookup key with
    | some (.str s) => some s
    | _ => none
  | _ => none

/-! ## Turn pairing (src/loaders/json_loader.py, lines 179-201) -/

/-- One element of the list returned by `get_ai_responses_with_context`. -/
structure AIResponseEntry where
  turn_id : ℤ
  user_query : String
  ai_response : String
  timestamp : String
  evaluation_note : Option String
deriving DecidableEq

def mkEntry (prev_turn turn : ConversationTurn) : AIResponseEntry :=
  { turn_id := turn.turn
    user_query := prev_turn.message
    ai_response := turn.message
    timestamp := turn.created_at
    evaluation_note := turn.evaluation_note }

/-- The loop body: `turn.role == "AI/Chatbot" and i > 0`, then
`turns[i-1].role == "User"`. -/
def pairFilter (turns : List ConversationTurn) (p : ℕ × ConversationTurn) :
    Option AIResponseEntry :=
  if p.2.role = "AI/Chatbot" ∧ 0 < p.1 then
    match turns[p.1 - 1]? with
    | some prev_turn => if prev_turn.role = "User" then some (mkEntry prev_turn p.2) else none
    | none => none
  else none

/-- `JSONDataLoader.get_ai_responses_with_context`: `for i, turn in
enumerate(turns)` with conditional append. -/
def get_ai_responses_with_context (conversation : Conversation) : List AIResponseEntry :=
  (conversation.conversation_turns.enum).filterMap
    (pairFilter conversation.conversation_turns)

/-- The adjacency rule in the words of the spec (the comparison target for C9): one
entry per AI turn immediately preceded by a User turn, in conversation order. -/
def adjacentUserAIPairs : List ConversationTurn → List AIResponseEntry
  | a :: b :: rest =>
    (if a.role = "User" ∧ b.role = "AI/Chatbot" then [mkEntry a b] else [])
      ++ adjacentUserAIPairs (b :: rest)
  | _ => []

/-! ## Concrete instances used by witnesses, counterexamples and evidence -/

def sampleRelevance : RelevanceResult :=
  { score := 4, is_relevant := true, is_complete := true,
    relevance_explanation := "", completeness_explanation := "" }

def sampleHallucinationJudge : HallucinationResult :=
  { score := 3, has_hallucination := false, factual_accuracy := mkRat 4 5 }

def sampleHallucinationLettuce : HallucinationResult :=
  { score := 5, has_hallucination := false, factual_accuracy := 1 }

def sampleRouge : ROUGEResult := { average_score := mkRat 1 2 }

def sampleOracle : StrategyOracle :=
  { relevanceResult := sampleRelevance
    judgeHallucinationResult := sampleHallucinationJudge
    lettuceResult := sampleHallucinationLettuce
    rougeNgramResult := sampleRouge
    rougeJudgeResult := sampleRouge }

/-- A configuration enabling completeness but not relevance. -/
def completenessOnlyConfig : MetricsConfig :=
  { response_relevance := false, response_completeness := true }

/-- The default configuration with ROUGE disabled. -/
def rougeOffConfig : MetricsConfig := { rouge := false }

def hotelContextVector : ContextVector := { text := some "Hotel room pricing details" }

/-- A predicted span whose text is six dots: zero non-punctuation characters,
confidence 0.9. -/
def dotsSpan : PredSpan :=
  { start := some 0, end_ := some 6, confidence := some (mkRat 9 10), text := some "......" }

def dotsDetector : LettuceDetector := { predict := fun _ _ _ => .ok [dotsSpan] }

/-- A predicted span with ordinary text and confidence 0.9. -/
def retainedSpan : PredSpan :=
  { start := some 0, end_ := some 11, confidence := some (mkRat 9 10), text := some "hello world" }

def retainedDetector : LettuceDetector := { predict := fun _ _ _ => .ok [retainedSpan] }

/-- A detector whose prediction step raises. -/
def failingDetector : LettuceDetector :=
  { predict := fun _ _ _ => .error "CUDA error: device-side assert triggered" }

/-- The number of characters of a string outside `string.punctuation` — the
quantity the noise filter of the spec is stated in terms of. -/
def nonPunctuationCount (s : String) : ℕ :=
  (s.toList.filter (fun c => !(punctuationString.toList.contains c))).length

/-- A syntactically clean JSON document (it parses strictly, so it has no
comment lines and no trailing commas) holding the string value ",}". -/
def cleanJsonSample : String := "\x7b\"a\": \",\x7d\"\x7d"

def turnU1 : ConversationTurn :=
  { turn := 1, sender_id := 10, role := "User", message := "A", created_at := "t1" }

def turnA2 : ConversationTurn :=
  { turn := 2, sender_id := 20, role := "AI/Chatbot", message := "B", created_at := "t2" }

def turnA3 : ConversationTurn :=
  { turn := 3, sender_id := 20, role := "AI/Chatbot", message := "C", created_at := "t3" }

def turnU4 : ConversationTurn :=
  { turn := 4, sender_id := 10, role := "User", message := "D", created_at := "t4" }

def turnA5 : ConversationTurn :=
  { turn := 5, sender_id := 20, role := "AI/Chatbot", message := "E", created_at := "t5" }

/-- The pairing example of the spec: turns [User(A), AI(B), AI(C), User(D), AI(E)]. -/
def sampleConversation : Conversation :=
  { chat_id := 1, user_id := 10,
    conversation_turns := [turnU1, turnA2, turnA3, turnU4, turnA5] }

/-- The all-defaults configuration. -/
def defaultMetricsConfig : MetricsConfig := {}

/-- A parsed judge output with sub-scores 3 and 4. -/
def sampleJudgeOutput : RelevanceJudgeOutput :=
  { relevance_score := 3, completeness_score := 4, is_relevant := true, is_complete := true,
    relevance_explanation := "", completeness_explanation := "" }

/-!
# Theorems

Helper lemmas come first; each claim of the specification gets exactly one
named theorem (witnesses and counterexamples are separate closed theorems).
-/

/-- `pyFloor` agrees with the mathematical floor. -/
theorem pyFloor_eq (x : ℚ) : pyFloor x = ⌊x⌋ := Rat.floor_def.symm

/-- `pyRound` returns a nearest integer: it is within 1/2 of its argument. -/
theorem pyRound_dist (x : ℚ) : |(pyRound x : ℚ) - x| ≤ 1/2 := by
  have hfl : ((pyFloor x : ℤ) : ℚ) ≤ x := by rw [pyFloor_eq]; exact_mod_cast Int.floor_le x
  have hfu : x < ((pyFloor x : ℤ) : ℚ) + 1 := by rw [pyFloor_eq]; exact_mod_cast Int.lt_floor_add_one x
  unfold pyRound
  split_ifs with h1 h2 h3 <;> rw [abs_le] <;> constructor <;> push_cast <;> linarith

/-- C7: for every judge output whose relevance_score and completeness_score are
integers in [1,5], the combined RelevanceResult.score equals the arithmetic
mean of the two sub-scores rounded to the nearest integer (Python `round`,
half to even), and it is indeed a nearest integer to the mean. -/
theorem C7_relevance_score_rounded_mean (judge : RelevanceJudgeOutput)
    (h1 : 1 ≤ judge.relevance_score) (h2 : judge.relevance_score ≤ 5)
    (h3 : 1 ≤ judge.completeness_score) (h4 : judge.completeness_score ≤ 5) :
    (evaluate_relevance judge).score
        = pyRound (((judge.relevance_score : ℚ) + (judge.completeness_score : ℚ)) / 2)
      ∧ |((evaluate_relevance judge).score : ℚ)
          - ((judge.relevance_score : ℚ) + (judge.completeness_score : ℚ)) / 2| ≤ 1/2 :=
  ⟨rfl, pyRound_dist _⟩

/-- Witness for C7 at sub-scores 3 and 4. -/
theorem C7_relevance_score_rounded_mean_witness :
    (1 ≤ sampleJudgeOutput.relevance_score ∧ sampleJudgeOutput.relevance_score ≤ 5
      ∧ 1 ≤ sampleJudgeOutput.completeness_score ∧ sampleJudgeOutput.completeness_score ≤ 5)
    ∧ ((evaluate_relevance sampleJudgeOutput).score
        = pyRound (((sampleJudgeOutput.relevance_score : ℚ)
            + (sampleJudgeOutput.completeness_score : ℚ)) / 2)
      ∧ |((evaluate_relevance sampleJudgeOutput).score : ℚ)
          - ((sampleJudgeOutput.relevance_score : ℚ)
            + (sampleJudgeOutput.completeness_score : ℚ)) / 2| ≤ 1/2) :=
  ⟨by refine ⟨by decide, by decide, by decide, by decide⟩,
   C7_relevance_score_rounded_mean sampleJudgeOutput (by decide) (by decide) (by decide) (by decide)⟩

/-- A term `x * w` with `x ∈ [0,1]` and `w ≥ 0` lies in `[0,w]`. -/
theorem weighted_term_bounds (x w : ℚ) (hx0 : 0 ≤ x) (hx1 : x ≤ 1) (hw : 0 ≤ w) :
    0 ≤ x * w ∧ x * w ≤ w :=
  ⟨mul_nonneg hx0 hw, by nlinarith⟩

/-- A 1-5 score divided by 5 lies in [0,1]. -/
theorem score_div_bounds (s : ℤ) (h1 : 1 ≤ s) (h5 : s ≤ 5) :
    0 ≤ (s : ℚ) / 5 ∧ (s : ℚ) / 5 ≤ 1 := by
  have hc1 : (1 : ℚ) ≤ (s : ℚ) := by exact_mod_cast h1
  have hc5 : (s : ℚ) ≤ 5 := by exact_mod_cast h5
  constructor
  · exact div_nonneg (by linarith) (by norm_num)
  · rw [div_le_one (by norm_num)]; linarith

/-- The relevance/completeness contribution is between 0 and its weight share. -/
theorem relevancePart_bounds (config : MetricsConfig) (relevance : Option RelevanceResult)
    (hs : ∀ r ∈ relevance, 1 ≤ r.score ∧ r.score ≤ 5)
    (hw1 : 0 ≤ config.response_relevance_weight)
    (hw2 : 0 ≤ config.response_completeness_weight) :
    0 ≤ (relevancePart config relevance).1
      ∧ (relevancePart config relevance).1 ≤ (relevancePart config relevance).2
      ∧ 0 ≤ (relevancePart config relevance).2 := by
  cases relevance with
  | none => simp [relevancePart]
  | some r =>
    obtain ⟨hr1, hr5⟩ := hs r rfl
    obtain ⟨hx0, hx1⟩ := score_div_bounds r.score hr1 hr5
    obtain ⟨ha0, haw⟩ := weighted_term_bounds _ _ hx0 hx1 hw1
    obtain ⟨hb0, hbw⟩ := weighted_term_bounds _ _ hx0 hx1 hw2
    cases hc1 : config.response_relevance <;> cases hc2 : config.response_completeness <;>
      simp [relevancePart, hc1, hc2] <;>
      refine ⟨by linarith, by linarith, by linarith⟩

/-- The hallucination contribution is between 0 and its weight. -/
theorem hallucinationPart_bounds (config : MetricsConfig)
    (hallucination : Option HallucinationResult)
    (hs : ∀ h ∈ hallucination, 1 ≤ h.score ∧ h.score ≤ 5)
    (hw : 0 ≤ config.hallucination_weight) :
    0 ≤ (hallucinationPart config hallucination).1
      ∧ (hallucinationPart config hallucination).1 ≤ (hallucinationPart config hallucination).2
      ∧ 0 ≤ (hallucinationPart config hallucination).2 := by
  cases hallucination with
  | none => simp [hallucinationPart]
  | some h =>
    obtain ⟨hr1, hr5⟩ := hs h rfl
    obtain ⟨hx0, hx1⟩ := score_div_bounds h.score hr1 hr5
    obtain ⟨ha0, haw⟩ := weighted_term_bounds _ _ hx0 hx1 hw
    simp [hallucinationPart]
    exact ⟨ha0, haw, hw⟩

/-- The ROUGE contribution is between 0 and its weight. -/
theorem rougePart_bounds (config : MetricsConfig) (rouge : Option ROUGEResult)
    (hs : ∀ rg ∈ rouge, 0 ≤ rg.average_score ∧ rg.average_score ≤ 1)
    (hw : 0 ≤ config.rouge_weight) :
    0 ≤ (rougePart config rouge).1
      ∧ (rougePart config rouge).1 ≤ (rougePart config rouge).2
      ∧ 0 ≤ (rougePart config rouge).2 := by
  cases rouge with
  | none => simp [rougePart]
  | some rg =>
    obtain ⟨hx0, hx1⟩ := hs rg rfl
    obtain ⟨ha0, haw⟩ := weighted_term_bounds _ _ hx0 hx1 hw
    simp [rougePart]
    exact ⟨ha0, haw, hw⟩

/-- The normalized overall score lies in [0,5]. -/
theorem computeOverall_bounds (config : MetricsConfig) (relevance : Option RelevanceResult)
    (hallucination : Option HallucinationResult) (rouge : Option ROUGEResult)
    (hrel : ∀ r ∈ relevance, 1 ≤ r.score ∧ r.score ≤ 5)
    (hhal : ∀ h ∈ hallucination, 1 ≤ h.score ∧ h.score ≤ 5)
    (hrg : ∀ rg ∈ rouge, 0 ≤ rg.average_score ∧ rg.average_score ≤ 1)
    (hw1 : 0 ≤ config.response_relevance_weight)
    (hw2 : 0 ≤ config.response_completeness_weight)
    (hw3 : 0 ≤ config.hallucination_weight)
    (hw4 : 0 ≤ config.rouge_weight) :
    0 ≤ computeOverall config relevance hallucination rouge
      ∧ computeOverall config relevance hallucination rouge ≤ 5 := by
  obtain ⟨ha0, haw, hA0⟩ := relevancePart_bounds config relevance hrel hw1 hw2
  obtain ⟨hb0, hbw, hB0⟩ := hallucinationPart_bounds config hallucination hhal hw3
  obtain ⟨hc0, hcw, hC0⟩ := rougePart_bounds config rouge hrg hw4
  simp only [computeOverall]
  split_ifs with hpos
  · have hws0 : 0 ≤ (relevancePart config relevance).1 + (hallucinationPart config hallucination).1
        + (rougePart config rouge).1 := by linarith
    have hwle : (relevancePart config relevance).1 + (hallucinationPart config hallucination).1
        + (rougePart config rouge).1
        ≤ (relevancePart config relevance).2 + (hallucinationPart config hallucination).2
          + (rougePart config rouge).2 := by linarith
    have hq0 : 0 ≤ ((relevancePart config relevance).1 + (hallucinationPart config hallucination).1
        + (rougePart config rouge).1)
        / ((relevancePart config relevance).2 + (hallucinationPart config hallucination).2
          + (rougePart config rouge).2) := div_nonneg hws0 (le_of_lt hpos)
    have hq1 : ((relevancePart config relevance).1 + (hallucinationPart config hallucination).1
        + (rougePart config rouge).1)
        / ((relevancePart config relevance).2 + (hallucinationPart config hallucination).2
          + (rougePart config rouge).2) ≤ 1 := (div_le_one hpos).mpr hwle
    constructor <;> nlinarith
  · norm_num

/-- The overall score of `evaluate_response` is `computeOverall` over the
selected strategy results. -/
theorem evaluate_response_overall (config : MetricsConfig) (o : StrategyOracle) (turn_id : ℤ)
    (user_query ai_response : String) (context_vectors : List ContextVector) :
    (evaluate_response config o turn_id user_query ai_response context_vectors).overall_score
      = computeOverall config (selectRelevance config o) (selectHallucination config o)
          (selectRouge config o) := rfl

/-- Scores of whatever `selectRelevance` returns come from the oracle relevance result. -/
theorem selectRelevance_score_bounds (config : MetricsConfig) (o : StrategyOracle)
    (h1 : 1 ≤ o.relevanceResult.score) (h5 : o.relevanceResult.score ≤ 5) :
    ∀ r ∈ selectRelevance config o, 1 ≤ r.score ∧ r.score ≤ 5 := by
  intro r hr
  unfold selectRelevance at hr
  split at hr
  · obtain rfl := Option.mem_some_iff.mp hr
    exact ⟨h1, h5⟩
  · exact absurd hr (by simp)

/-- Scores of whatever `selectHallucination` returns come from one of the two
oracle hallucination results. -/
theorem selectHallucination_score_bounds (config : MetricsConfig) (o : StrategyOracle)
    (hj1 : 1 ≤ o.judgeHallucinationResult.score) (hj5 : o.judgeHallucinationResult.score ≤ 5)
    (hl1 : 1 ≤ o.lettuceResult.score) (hl5 : o.lettuceResult.score ≤ 5) :
    ∀ h ∈ selectHallucination config o, 1 ≤ h.score ∧ h.score ≤ 5 := by
  intro h hh
  unfold selectHallucination at hh
  split at hh
  · obtain rfl := Option.mem_some_iff.mp hh
    split_ifs <;> exact ⟨by assumption, by assumption⟩
  · exact absurd hh (by simp)

/-- Average scores of whatever `selectRouge` returns come from one of the two
oracle ROUGE results. -/
theorem selectRouge_average_bounds (config : MetricsConfig) (o : StrategyOracle)
    (hn0 : 0 ≤ o.rougeNgramResult.average_score) (hn1 : o.rougeNgramResult.average_score ≤ 1)
    (hg0 : 0 ≤ o.rougeJudgeResult.average_score) (hg1 : o.rougeJudgeResult.average_score ≤ 1) :
    ∀ rg ∈ selectRouge config o, 0 ≤ rg.average_score ∧ rg.average_score ≤ 1 := by
  intro rg hrg
  unfold selectRouge at hrg
  split at hrg
  · obtain rfl := Option.mem_some_iff.mp hrg
    split_ifs <;> exact ⟨by assumption, by assumption⟩
  · exact absurd hrg (by simp)

/-- C1: for every MetricsConfig and every metric result whose fields lie in
their declared ranges (relevance/hallucination scores in [1,5], ROUGE
average_score in [0,1], all weights nonnegative), the overall_score returned
by evaluate_response lies in [0,5]; and when zero metrics are enabled (so no
strategy runs and total_weight is 0), overall_score equals exactly 0.0. -/
theorem C1_overall_score_range (config : MetricsConfig) (o : StrategyOracle) (turn_id : ℤ)
    (user_query ai_response : String) (context_vectors : List ContextVector)
    (hrel1 : 1 ≤ o.relevanceResult.score) (hrel5 : o.relevanceResult.score ≤ 5)
    (hj1 : 1 ≤ o.judgeHallucinationResult.score) (hj5 : o.judgeHallucinationResult.score ≤ 5)
    (hl1 : 1 ≤ o.lettuceResult.score) (hl5 : o.lettuceResult.score ≤ 5)
    (hn0 : 0 ≤ o.rougeNgramResult.average_score) (hn1 : o.rougeNgramResult.average_score ≤ 1)
    (hg0 : 0 ≤ o.rougeJudgeResult.average_score) (hg1 : o.rougeJudgeResult.average_score ≤ 1)
    (hw1 : 0 ≤ config.response_relevance_weight) (hw2 : 0 ≤ config.response_completeness_weight)
    (hw3 : 0 ≤ config.hallucination_weight) (hw4 : 0 ≤ config.rouge_weight) :
    (0 ≤ (evaluate_response config o turn_id user_query ai_response context_vectors).overall_score
      ∧ (evaluate_response config o turn_id user_query ai_response context_vectors).overall_score ≤ 5)
    ∧ (config.response_relevance = false → config.response_completeness = false →
        config.hallucination = false → config.rouge = false →
        (evaluate_response config o turn_id user_query ai_response context_vectors).overall_score
          = 0) := by
  constructor
  · simp only [evaluate_response_overall]
    exact computeOverall_bounds config _ _ _
      (selectRelevance_score_bounds config o hrel1 hrel5)
      (selectHallucination_score_bounds config o hj1 hj5 hl1 hl5)
      (selectRouge_average_bounds config o hn0 hn1 hg0 hg1)
      hw1 hw2 hw3 hw4
  · intro hd1 hd2 hd3 hd4
    simp only [evaluate_response_overall]
    have e1 : selectRelevance config o = none := by simp [selectRelevance, hd1, hd2]
    have e2 : selectHallucination config o = none := by simp [selectHallucination, hd3]
    have e3 : selectRouge config o = none := by simp [selectRouge, hd4]
    rw [e1, e2, e3]
    simp [computeOverall, relevancePart, hallucinationPart, rougePart]

/-- Witness for C1 at the default configuration and in-range sample results. -/
theorem C1_overall_score_range_witness :
    (1 ≤ sampleOracle.relevanceResult.score ∧ sampleOracle.relevanceResult.score ≤ 5
      ∧ 0 ≤ sampleOracle.rougeNgramResult.average_score
      ∧ sampleOracle.rougeNgramResult.average_score ≤ 1
      ∧ 0 ≤ defaultMetricsConfig.response_relevance_weight
      ∧ 0 ≤ defaultMetricsConfig.rouge_weight)
    ∧ ((0 ≤ (evaluate_response defaultMetricsConfig sampleOracle 1 "q" "a" []).overall_score
      ∧ (evaluate_response defaultMetricsConfig sampleOracle 1 "q" "a" []).overall_score ≤ 5)
    ∧ (defaultMetricsConfig.response_relevance = false →
        defaultMetricsConfig.response_completeness = false →
        defaultMetricsConfig.hallucination = false → defaultMetricsConfig.rouge = false →
        (evaluate_response defaultMetricsConfig sampleOracle 1 "q" "a" []).overall_score = 0)) :=
  ⟨⟨by decide, by decide, by decide, by decide, by decide, by decide⟩,
   C1_overall_score_range defaultMetricsConfig sampleOracle 1 "q" "a" []
    (by decide) (by decide) (by decide) (by decide) (by decide) (by decide)
    (by decide) (by decide) (by decide) (by decide) (by decide) (by decide)
    (by decide) (by decide)⟩

/-- Scaling the weights scales the relevance contribution linearly. -/
theorem relevancePart_scale (c : ℚ) (config : MetricsConfig) (relevance : Option RelevanceResult) :
    relevancePart (scaleWeights c config) relevance
      = (c * (relevancePart config relevance).1, c * (relevancePart config relevance).2) := by
  cases relevance with
  | none => simp [relevancePart]
  | some r =>
    simp only [relevancePart, scaleWeights]
    rw [Prod.mk.injEq]
    constructor <;> split_ifs <;> ring

/-- Scaling the weights scales the hallucination contribution linearly. -/
theorem hallucinationPart_scale (c : ℚ) (config : MetricsConfig)
    (hallucination : Option HallucinationResult) :
    hallucinationPart (scaleWeights c config) hallucination
      = (c * (hallucinationPart config hallucination).1,
         c * (hallucinationPart config hallucination).2) := by
  cases hallucination with
  | none => simp [hallucinationPart]
  | some h =>
    simp only [hallucinationPart, scaleWeights]
    rw [Prod.mk.injEq]
    constructor <;> ring

/-- Scaling the weights scales the ROUGE contribution linearly. -/
theorem rougePart_scale (c : ℚ) (config : MetricsConfig) (rouge : Option ROUGEResult) :
    rougePart (scaleWeights c config) rouge
      = (c * (rougePart config rouge).1, c * (rougePart config rouge).2) := by
  cases rouge with
  | none => simp [rougePart]
  | some rg =>
    simp only [rougePart, scaleWeights]
    rw [Prod.mk.injEq]
    constructor <;> ring

/-- The normalized overall score is invariant under scaling all weights by a
positive constant. -/
theorem computeOverall_scale (c : ℚ) (hc : 0 < c) (config : MetricsConfig)
    (relevance : Option RelevanceResult) (hallucination : Option HallucinationResult)
    (rouge : Option ROUGEResult) :
    computeOverall (scaleWeights c config) relevance hallucination rouge
      = computeOverall config relevance hallucination rouge := by
  simp only [computeOverall, relevancePart_scale, hallucinationPart_scale, rougePart_scale]
  generalize (relevancePart config relevance).1 = p1
  generalize (relevancePart config relevance).2 = p2
  generalize (hallucinationPart config hallucination).1 = h1
  generalize (hallucinationPart config hallucination).2 = h2
  generalize (rougePart config rouge).1 = r1
  generalize (rougePart config rouge).2 = r2
  by_cases hpos : 0 < p2 + h2 + r2
  · rw [if_pos hpos, if_pos (by nlinarith),
      show c * p1 + c * h1 + c * r1 = c * (p1 + h1 + r1) by ring,
      show c * p2 + c * h2 + c * r2 = c * (p2 + h2 + r2) by ring,
      mul_div_mul_left _ _ (ne_of_gt hc)]
  · rw [if_neg hpos, if_neg (fun hcon => hpos (by nlinarith))]

/-- C2: the orchestrator renormalizes by the total weight of enabled metrics —
the overall score is invariant under scaling all weights by any positive
constant, and with ROUGE disabled at the default weights (0.3/0.3/0.3), the
overall score is exactly the weighted mean of the remaining normalized metric
scores rescaled to 0-5. -/
theorem C2_weight_renormalization (config : MetricsConfig) (o : StrategyOracle) (turn_id : ℤ)
    (user_query ai_response : String) (context_vectors : List ContextVector)
    (c : ℚ) (hc : 0 < c) :
    (evaluate_response (scaleWeights c config) o turn_id user_query ai_response
        context_vectors).overall_score
      = (evaluate_response config o turn_id user_query ai_response
          context_vectors).overall_score
    ∧ (evaluate_response rougeOffConfig o turn_id user_query ai_response
        context_vectors).overall_score
      = ((o.relevanceResult.score : ℚ) / 5 * (3/10)
          + (o.relevanceResult.score : ℚ) / 5 * (3/10)
          + (o.judgeHallucinationResult.score : ℚ) / 5 * (3/10))
        / (3/10 + 3/10 + 3/10) * 5 := by
  constructor
  · show computeOverall (scaleWeights c config) (selectRelevance config o)
      (selectHallucination config o) (selectRouge config o) = _
    exact computeOverall_scale c hc config _ _ _
  · show computeOverall rougeOffConfig (some o.relevanceResult)
      (some o.judgeHallucinationResult) none = _
    have hmk : (mkRat 3 10 : ℚ) = 3/10 := by
      rw [Rat.mkRat_eq_div]; norm_num
    simp only [computeOverall, relevancePart, hallucinationPart, rougePart, rougeOffConfig]
    norm_num [hmk]

/-- Witness for C2 at the default configuration, sample results and scale 2. -/
theorem C2_weight_renormalization_witness :
    (0 < (2 : ℚ))
    ∧ ((evaluate_response (scaleWeights 2 defaultMetricsConfig) sampleOracle 1 "q" "a"
          []).overall_score
        = (evaluate_response defaultMetricsConfig sampleOracle 1 "q" "a" []).overall_score
      ∧ (evaluate_response rougeOffConfig sampleOracle 1 "q" "a" []).overall_score
        = ((sampleOracle.relevanceResult.score : ℚ) / 5 * (3/10)
            + (sampleOracle.relevanceResult.score : ℚ) / 5 * (3/10)
            + (sampleOracle.judgeHallucinationResult.score : ℚ) / 5 * (3/10))
          / (3/10 + 3/10 + 3/10) * 5) :=
  ⟨by decide,
   C2_weight_renormalization defaultMetricsConfig sampleOracle 1 "q" "a" [] 2 (by decide)⟩

/-- The relevance field of the result is the selected relevance option. -/
theorem evaluate_response_relevance (config : MetricsConfig) (o : StrategyOracle) (turn_id : ℤ)
    (user_query ai_response : String) (context_vectors : List ContextVector) :
    (evaluate_response config o turn_id user_query ai_response context_vectors).relevance
      = selectRelevance config o := rfl

/-- The hallucination field of the result is the selected hallucination option. -/
theorem evaluate_response_hallucination (config : MetricsConfig) (o : StrategyOracle) (turn_id : ℤ)
    (user_query ai_response : String) (context_vectors : List ContextVector) :
    (evaluate_response config o turn_id user_query ai_response context_vectors).hallucination
      = selectHallucination config o := rfl

/-- The rouge field of the result is the selected ROUGE option. -/
theorem evaluate_response_rouge (config : MetricsConfig) (o : StrategyOracle) (turn_id : ℤ)
    (user_query ai_response : String) (context_vectors : List ContextVector) :
    (evaluate_response config o turn_id user_query ai_response context_vectors).rouge
      = selectRouge config o := rfl

/-- Counterexample to C3 as stated: with response_relevance disabled and
response_completeness enabled, the relevance field is still present. -/
theorem C3_relevance_presence_counterexample :
    (evaluate_response completenessOnlyConfig sampleOracle 1 "q" "a" []).relevance.isSome = true
      ∧ completenessOnlyConfig.response_relevance = false :=
  ⟨rfl, rfl⟩

/-- C3 (amended): in the EvaluationResult built by evaluate_response, the
hallucination field is present iff config.hallucination, the rouge field is
present iff config.rouge, and the relevance field is present iff
response_relevance OR response_completeness is enabled. -/
theorem C3_presence_iff_enabled (config : MetricsConfig) (o : StrategyOracle) (turn_id : ℤ)
    (user_query ai_response : String) (context_vectors : List ContextVector) :
    ((evaluate_response config o turn_id user_query ai_response context_vectors).relevance.isSome
        = (config.response_relevance || config.response_completeness))
      ∧ ((evaluate_response config o turn_id user_query ai_response
            context_vectors).hallucination.isSome = config.hallucination)
      ∧ ((evaluate_response config o turn_id user_query ai_response
            context_vectors).rouge.isSome = config.rouge) := by
  refine ⟨?_, ?_, ?_⟩
  · rw [evaluate_response_relevance]
    cases h1 : config.response_relevance <;> cases h2 : config.response_completeness <;>
      simp [selectRelevance, h1, h2]
  · rw [evaluate_response_hallucination]
    cases h : config.hallucination <;> simp [selectHallucination, h]
  · rw [evaluate_response_rouge]
    cases h : config.rouge <;> simp [selectRouge, h]

/-- Shared helper: when the guards pass and the detector interaction raises,
`lettuce_evaluate` returns the neutral fallback result. -/
theorem lettuce_evaluate_error_case (user_query ai_response : String)
    (context_vectors : List ContextVector) (imported : Option LettuceDetector) (e : String)
    (h1 : ai_response ≠ "") (h2 : context_vectors ≠ [])
    (h3 : (extract_context_text context_vectors).headD "" ≠ "")
    (h4 : lettucePredictOutcome imported (extract_context_text context_vectors)
        user_query ai_response = .error e) :
    lettuce_evaluate user_query ai_response context_vectors imported
      = .ok (lettuceFallback e) := by
  simp only [lettuce_evaluate]
  rw [if_neg (not_or.mpr ⟨h1, h2⟩),
    if_neg (fun hor => hor.elim (fun hnil => h3 (by rw [hnil]; rfl)) h3), h4]

/-- C5: LettuceDetectEvaluator.evaluate never raises on an internal failure —
whenever the detector acquisition or prediction step throws, it returns the
neutral fallback (score 3, has_hallucination False, factual_accuracy 0.5,
explanation containing the error), so the pipeline continues. -/
theorem C5_fallback_on_detector_error (user_query ai_response : String)
    (context_vectors : List ContextVector) (imported : Option LettuceDetector) (e : String)
    (h1 : ai_response ≠ "") (h2 : context_vectors ≠ [])
    (h3 : (extract_context_text context_vectors).headD "" ≠ "")
    (h4 : lettucePredictOutcome imported (extract_context_text context_vectors)
        user_query ai_response = .error e) :
    lettuce_evaluate user_query ai_response context_vectors imported
        = .ok (lettuceFallback e)
      ∧ (lettuceFallback e).score = 3
      ∧ (lettuceFallback e).has_hallucination = false
      ∧ (lettuceFallback e).factual_accuracy = 1/2
      ∧ (lettuceFallback e).hallucinated_claims = []
      ∧ ∃ preText, (lettuceFallback e).explanation = preText ++ e := by
  refine ⟨lettuce_evaluate_error_case user_query ai_response context_vectors imported e
      h1 h2 h3 h4, rfl, rfl, ?_, rfl, ⟨"LettuceDetect evaluation error: ", rfl⟩⟩
  show mkRat 1 2 = 1/2
  rw [Rat.mkRat_eq_div]; norm_num

/-- Witness for C5 at a concrete inference failure. -/
theorem C5_fallback_on_detector_error_witness :
    ("ans" ≠ "" ∧ lettucePredictOutcome (some failingDetector)
        (extract_context_text [hotelContextVector]) "q" "ans"
        = .error "CUDA error: device-side assert triggered")
    ∧ (lettuce_evaluate "q" "ans" [hotelContextVector] (some failingDetector)
        = .ok (lettuceFallback "CUDA error: device-side assert triggered")
      ∧ (lettuceFallback "CUDA error: device-side assert triggered").score = 3
      ∧ (lettuceFallback "CUDA error: device-side assert triggered").has_hallucination = false
      ∧ (lettuceFallback "CUDA error: device-side assert triggered").factual_accuracy = 1/2
      ∧ (lettuceFallback "CUDA error: device-side assert triggered").hallucinated_claims = []
      ∧ ∃ preText, (lettuceFallback "CUDA error: device-side assert triggered").explanation
          = preText ++ "CUDA error: device-side assert triggered") :=
  ⟨⟨by decide, rfl⟩,
   C5_fallback_on_detector_error "q" "ans" [hotelContextVector] (some failingDetector)
    "CUDA error: device-side assert triggered" (by decide) (by decide) (by decide) rfl⟩

/-- Counterexample to C6 as stated: for the transformer hallucination strategy
the missing-dependency ImportError does not propagate — evaluate converts it
into the neutral fallback result. -/
theorem C6_import_error_not_propagated_counterexample :
    lettuce_evaluate "q" "resp" [hotelContextVector] none
      = .ok (lettuceFallback lettucedetect_import_error_message) := rfl

/-- C6 (amended): the ImportError with an actionable install instruction is
raised at first use of the strategy; for the ROUGE n-gram strategy it
propagates to the caller uncaught, while for the transformer hallucination
strategy it is raised by the lazy getter but caught inside evaluate and
converted to the neutral fallback result. -/
theorem C6_import_error_eager_raise (user_query ai_response : String)
    (context_vectors : List ContextVector)
    (rouge_types : Option (List String)) (self_rouge_types : List String)
    (h1 : ai_response ≠ "") (h2 : context_vectors ≠ [])
    (h3 : extract_reference_text context_vectors ≠ "")
    (h4 : (extract_context_text context_vectors).headD "" ≠ "") :
    rouge_evaluate ai_response context_vectors rouge_types self_rouge_types none
        = .error rouge_import_error_message
      ∧ lettuce_evaluate user_query ai_response context_vectors none
        = .ok (lettuceFallback lettucedetect_import_error_message)
      ∧ (∃ a b, rouge_import_error_message = a ++ "pip install" ++ b)
      ∧ (∃ a b, lettucedetect_import_error_message = a ++ "pip install" ++ b) := by
  refine ⟨?_, ?_, ?_, ?_⟩
  · simp only [rouge_evaluate]
    rw [if_neg (not_or.mpr ⟨h1, h2⟩), if_neg h3]
    rfl
  · exact lettuce_evaluate_error_case user_query ai_response context_vectors none
      lettucedetect_import_error_message h1 h2 h4 rfl
  · exact ⟨"ROUGE evaluation requires rouge-score package.\nInstall with: ",
      " rouge-score\nOr: pip install -r requirements.txt", by decide⟩
  · exact ⟨"LettuceDetect evaluation requires lettucedetect package.\nInstall with: ",
      " lettucedetect\nOr: pip install -r requirements.txt", by decide⟩

/-- Witness for the amended C6 at concrete inputs. -/
theorem C6_import_error_eager_raise_witness :
    ("resp" ≠ "" ∧ extract_reference_text [hotelContextVector] ≠ "")
    ∧ (rouge_evaluate "resp" [hotelContextVector] none ["rouge-1", "rouge-2", "rouge-l"] none
        = .error rouge_import_error_message
      ∧ lettuce_evaluate "q" "resp" [hotelContextVector] none
        = .ok (lettuceFallback lettucedetect_import_error_message)
      ∧ (∃ a b, rouge_import_error_message = a ++ "pip install" ++ b)
      ∧ (∃ a b, lettucedetect_import_error_message = a ++ "pip install" ++ b)) :=
  ⟨⟨by decide, by decide⟩,
   C6_import_error_eager_raise "q" "resp" [hotelContextVector] none
    ["rouge-1", "rouge-2", "rouge-l"] (by decide) (by decide) (by decide) (by decide)⟩

/-- C4 evidence (code bug): the filter computes
`text.strip().replace(string.punctuation, "")`, and `str.replace` with the
whole punctuation string is a no-op on ordinary text, so a span of six dots
(zero non-punctuation characters) with confidence 0.9 is retained and appears
in hallucinated_claims, contradicting the claimed noise filter. -/
theorem C4_punctuation_filter_evidence :
    nonPunctuationCount (pyStrip "......") = 0
      ∧ mkRat 4 5 ≤ mkRat 9 10
      ∧ lettuce_evaluate "q" "Clinic rooms cost twenty." [hotelContextVector] (some dotsDetector)
        = .ok (lettuceSuccessResult "Clinic rooms cost twenty." [dotsSpan])
      ∧ (lettuceSuccessResult "Clinic rooms cost twenty." [dotsSpan]).hallucinated_claims.map
          (fun cl => cl.claim) = ["......"] := by
  refine ⟨by decide, by decide, rfl, ?_⟩
  show ((buildClaims "Clinic rooms cost twenty." [dotsSpan]).1).map (fun cl => cl.claim)
    = ["......"]
  rw [buildClaims, if_neg (by decide), buildClaims]
  rfl

/-- Every claim retained by the span-processing loop records a confidence of
at least 0.8, and its severity is the confidence-threshold tag. -/
theorem buildClaims_mem (ai_response : String) (preds : List PredSpan) (cl : HallucinatedClaim)
    (h : cl ∈ (buildClaims ai_response preds).1) :
    ∃ c : ℚ, cl.confidence = some c ∧ mkRat 4 5 ≤ c
      ∧ cl.severity
        = (if mkRat 4 5 < c then "high" else if mkRat 1 2 < c then "medium" else "low") := by
  induction preds with
  | nil => simp [buildClaims] at h
  | cons p rest ih =>
    rw [buildClaims] at h
    by_cases hcond : ((pyRemoveOccurrences punctuationString
          (pyStrip (predText ai_response p))).toList.length < 5
        ∨ predConfidence p < mkRat 4 5)
    · rw [if_pos hcond] at h
      exact ih h
    · rw [if_neg hcond] at h
      push_neg at hcond
      rcases List.mem_cons.mp h with hcl | hcl
      · subst hcl
        exact ⟨predConfidence p, rfl, hcond.2, rfl⟩
      · exact ih hcl

/-- The hallucinated_claims of any result of `lettuce_evaluate` are empty or
produced by the span-processing loop. -/
theorem lettuce_evaluate_claims (user_query ai_response : String)
    (context_vectors : List ContextVector) (imported : Option LettuceDetector)
    (res : HallucinationResult)
    (h : lettuce_evaluate user_query ai_response context_vectors imported = .ok res) :
    res.hallucinated_claims = []
      ∨ ∃ preds, res.hallucinated_claims = (buildClaims ai_response preds).1 := by
  simp only [lettuce_evaluate] at h
  split at h
  · simp only [Except.ok.injEq] at h
    subst h
    left; rfl
  · split at h
    · simp only [Except.ok.injEq] at h
      subst h
      left; rfl
    · split at h
      · simp only [Except.ok.injEq] at h
        subst h
        left; rfl
      · simp only [Except.ok.injEq] at h
        subst h
        right
        exact ⟨_, rfl⟩

/-- C10: every entry of hallucinated_claims produced by the transformer
strategy has confidence at least 0.8 and severity "high" (iff confidence is
above 0.8) or "medium" (iff confidence equals exactly 0.8); the severity
"low" is unreachable. -/
theorem C10_severity_never_low (user_query ai_response : String)
    (context_vectors : List ContextVector) (imported : Option LettuceDetector)
    (res : HallucinationResult) (cl : HallucinatedClaim)
    (hres : lettuce_evaluate user_query ai_response context_vectors imported = .ok res)
    (hmem : cl ∈ res.hallucinated_claims) :
    ∃ c : ℚ, cl.confidence = some c ∧ 4/5 ≤ c
      ∧ (cl.severity = "high" ∨ cl.severity = "medium")
      ∧ (cl.severity = "high" ↔ 4/5 < c)
      ∧ (cl.severity = "medium" ↔ c = 4/5)
      ∧ cl.severity ≠ "low" := by
  rcases lettuce_evaluate_claims user_query ai_response context_vectors imported res hres with
    hnil | ⟨preds, hcl⟩
  · rw [hnil] at hmem
    simp at hmem
  · rw [hcl] at hmem
    obtain ⟨c, hc, hge, hsev⟩ := buildClaims_mem ai_response preds cl hmem
    have hmk45 : (mkRat 4 5 : ℚ) = 4/5 := by rw [Rat.mkRat_eq_div]; norm_num
    have hmk12 : (mkRat 1 2 : ℚ) = 1/2 := by rw [Rat.mkRat_eq_div]; norm_num
    rw [hmk45] at hge hsev
    rw [hmk12] at hsev
    rcases lt_or_eq_of_le hge with hlt | heq
    · rw [if_pos hlt] at hsev
      refine ⟨c, hc, hge, Or.inl hsev, ?_, ?_, ?_⟩
      · exact iff_of_true hsev hlt
      · exact iff_of_false (by rw [hsev]; decide) (fun hceq => absurd hceq (ne_of_gt hlt))
      · rw [hsev]; decide
    · rw [if_neg (by rw [← heq]; exact lt_irrefl _), if_pos (by rw [← heq]; norm_num)] at hsev
      refine ⟨c, hc, hge, Or.inr hsev, ?_, ?_, ?_⟩
      · exact iff_of_false (by rw [hsev]; decide) (by rw [← heq]; exact lt_irrefl _)
      · exact iff_of_true hsev heq.symm
      · rw [hsev]; decide

/-- Witness for C10 at a concrete retained span of confidence 0.9. -/
theorem C10_severity_never_low_witness :
    (lettuce_evaluate "q" "hello world says hi" [hotelContextVector] (some retainedDetector)
        = .ok (lettuceSuccessResult "hello world says hi" [retainedSpan]))
    ∧ (∃ c : ℚ,
        (mkHallucinatedClaim "hello world says hi" retainedSpan).confidence = some c ∧ 4/5 ≤ c
        ∧ ((mkHallucinatedClaim "hello world says hi" retainedSpan).severity = "high"
          ∨ (mkHallucinatedClaim "hello world says hi" retainedSpan).severity = "medium")
        ∧ ((mkHallucinatedClaim "hello world says hi" retainedSpan).severity = "high" ↔ 4/5 < c)
        ∧ ((mkHallucinatedClaim "hello world says hi" retainedSpan).severity = "medium" ↔ c = 4/5)
        ∧ (mkHallucinatedClaim "hello world says hi" retainedSpan).severity ≠ "low") :=
  ⟨rfl,
   C10_severity_never_low "q" "hello world says hi" [hotelContextVector] (some retainedDetector)
    (lettuceSuccessResult "hello world says hi" [retainedSpan])
    (mkHallucinatedClaim "hello world says hi" retainedSpan) rfl
    (by
      show mkHallucinatedClaim "hello world says hi" retainedSpan
        ∈ (buildClaims "hello world says hi" [retainedSpan]).1
      rw [buildClaims, if_neg (by decide), buildClaims]
      exact List.mem_cons_self _ _)⟩

/-- Generalized step for the pairing loop: filtering the enumeration of `ts`
from index `k+1` inside a full list whose suffix from index `k` reads
`prev :: ts` yields exactly the adjacent User→AI pairs of `prev :: ts`. -/
theorem pairFilter_enumFrom (full : List ConversationTurn) :
    ∀ (ts : List ConversationTurn) (k : ℕ) (prev : ConversationTurn),
      (∀ j : ℕ, full[k + j]? = (prev :: ts)[j]?) →
      (List.enumFrom (k + 1) ts).filterMap (pairFilter full)
        = adjacentUserAIPairs (prev :: ts) := by
  intro ts
  induction ts with
  | nil =>
    intro k prev hfull
    rfl
  | cons b rest ih =>
    intro k prev hfull
    have hprev : full[k]? = some prev := by
      have h0 := hfull 0
      simpa using h0
    show List.filterMap (pairFilter full) ((k + 1, b) :: List.enumFrom (k + 2) rest)
      = adjacentUserAIPairs (prev :: b :: rest)
    rw [List.filterMap_cons]
    have hnext : (List.enumFrom (k + 2) rest).filterMap (pairFilter full)
        = adjacentUserAIPairs (b :: rest) := by
      have harg : ∀ j : ℕ, full[k + 1 + j]? = (b :: rest)[j]? := by
        intro j
        have h := hfull (j + 1)
        rw [show k + (j + 1) = k + 1 + j by omega] at h
        rw [h]
        exact List.getElem?_cons_succ
      exact ih (k + 1) b harg
    rw [hnext, adjacentUserAIPairs]
    by_cases hA : b.role = "AI/Chatbot" <;> by_cases hU : prev.role = "User" <;>
      simp [pairFilter, hprev, hA, hU]

/-- The pairing loop equals the adjacency rule of the spec. -/
theorem get_ai_responses_eq_adjacent (conversation : Conversation) :
    get_ai_responses_with_context conversation
      = adjacentUserAIPairs conversation.conversation_turns := by
  unfold get_ai_responses_with_context
  cases hts : conversation.conversation_turns with
  | nil => rfl
  | cons a ts =>
    rw [List.enum_cons, List.filterMap_cons]
    have h0 : pairFilter (a :: ts) (0, a) = none := by simp [pairFilter]
    rw [h0]
    exact pairFilter_enumFrom (a :: ts) ts 0 a (fun j => by simp)

/-- C9: turn pairing produces a pair exactly for each AI turn immediately
preceded by a User turn, in conversation order; non-matching turns are
skipped silently — in particular [User(A), AI(B), AI(C), User(D), AI(E)]
yields exactly (A,B) and (D,E). -/
theorem C9_turn_pairing (conversation : Conversation) :
    get_ai_responses_with_context conversation
        = adjacentUserAIPairs conversation.conversation_turns
      ∧ get_ai_responses_with_context sampleConversation
        = [mkEntry turnU1 turnA2, mkEntry turnU4 turnA5] :=
  ⟨get_ai_responses_eq_adjacent conversation, by decide⟩

/-- C8 evidence (code bug): `cleanJsonSample` is clean JSON (it parses
strictly, hence has no trailing commas, and none of its lines is a comment
line), yet the cleanup pipeline changes the parsed value: the trailing-comma
regex deletes a comma inside a string literal. -/
theorem C8_cleanup_changes_clean_json_evidence :
    json_loads true cleanJsonSample = .ok (.obj [("a", .str ",\x7d")])
      ∧ parse_json_with_cleanup cleanJsonSample = .ok (.obj [("a", .str "\x7d")])
      ∧ ((splitOnChar '\n' cleanJsonSample.toList).all
          (fun line => !(['/', '/'].isPrefixOf (pyStripChars line))) = true)
      ∧ (",\x7d" : String) ≠ "\x7d" :=
  ⟨rfl, rfl, rfl, by decide⟩

end LlmEvalLab
